import Mathlib

/-!
Shallow embedding of `src/main.rs` of the "Unnamed Kitchen Inventory System"
(ukis): a CRUD REST API over PostgreSQL, written with poem-openapi and sqlx.

Modelling choices, stated once:

* Machine integers (`i32`, `i64`) are modelled as `Int`.  No handler performs
  arithmetic on them, they are only stored, compared and echoed back, so the
  width plays no role in any claim.
* `f32` values (`purchase_to_stock_factor`, `factor`, `stock_quantity`,
  `price`) are modelled as an abstract carrier `F32` wrapping the 32 raw bits:
  the program never computes with floats, it only stores and returns them.
* `chrono::NaiveDate` / `chrono::NaiveDateTime` are likewise abstract carriers:
  no date arithmetic occurs anywhere in the source.
* A SQL table is a list of rows plus the sequence counter that backs the
  `id` column; the four statement shapes that occur in the source
  (`SELECT *`, `SELECT * ... WHERE id = $1`, `INSERT ... RETURNING id`,
  `DELETE ... WHERE id = $1 RETURNING id`) are modelled by the four
  `Table` operations below.
* Each handler executes exactly one SQL statement, and that statement can
  fail at the driver level (connection loss, constraint violation, ...).
  The Boolean `dbErr` argument of every handler models whether its single
  statement's `Result` is an `Err`.  Handlers written with
  `.map_err(InternalServerError)?` turn that into an HTTP 500 response
  (`ApiOutcome.internalServerError`); the three handlers written with
  `.unwrap()` abort the task (`ApiOutcome.panicked`).
-/

namespace Ukis

/-- Abstract carrier for Rust `f32` values: the source never computes with
them, so only the raw bits are kept. -/
structure F32 where
  bits : Nat
  deriving DecidableEq

/-- Abstract carrier for `chrono::NaiveDate` (no date logic in the source). -/
structure NaiveDate where
  ordinal : Int
  deriving DecidableEq

/-- Abstract carrier for `chrono::NaiveDateTime`. -/
structure NaiveDateTime where
  ticks : Int
  deriving DecidableEq

/-- The `Product` record of `src/main.rs` (the `id` field is `#[oai(read_only)]`). -/
structure Product where
  id : Int
  name : String
  description : Option String
  parent_product_id : Option Int
  purchase_unit_id : Option Int
  stock_unit_id : Option Int
  purchase_to_stock_factor : Option F32
  deriving DecidableEq

/-- The `Space` record of `src/main.rs`. -/
structure Space where
  id : Int
  name : String
  description : Option String
  deriving DecidableEq

/-- The `Place` record of `src/main.rs`. -/
structure Place where
  id : Int
  name : String
  description : Option String
  deriving DecidableEq

/-- The `Unit` record of `src/main.rs` (a measurement unit such as gram). -/
structure Unit where
  id : Int
  singular : String
  plural : Option String
  deriving DecidableEq

/-- The `UnitConversion` record of `src/main.rs`. -/
structure UnitConversion where
  id : Int
  from_unit_id : Int
  to_unit_id : Int
  factor : Option F32
  deriving DecidableEq

/-- The `StockItem` record of `src/main.rs`. -/
structure StockItem where
  id : Int
  product_id : Int
  space_id : Int
  stock_quantity : F32
  best_by_date : Option NaiveDate
  deriving DecidableEq

/-- The `EntryType` enum of `src/main.rs` (ledger entry kinds). -/
inductive EntryType
  | purchase
  | transfer
  | consume
  | expire
  deriving DecidableEq

/-- The `StockEntry` record of `src/main.rs`.  No route of `UkisApi`
mentions it: it is declared and never served. -/
structure StockEntry where
  id : Int
  entry_timestamp : NaiveDateTime
  entry_type : EntryType
  stock_quantity : F32
  stock_item_i32 : Option Int
  product_id : Option Int
  place_id : Option Int
  to_space_id : Option Int
  price : Option F32
  deriving DecidableEq

/-- A SQL table: its rows and the sequence counter backing the generated
`id` column.  `nextId` is the id the next `INSERT ... RETURNING id` yields. -/
structure Table (α : Type) where
  rows : List α
  nextId : Int
  deriving DecidableEq

/-- Statement `SELECT * FROM t` (sqlx `fetch_all`). -/
def Table.selectAll {α : Type} (t : Table α) : List α :=
  t.rows

/-- Statement `SELECT * FROM t WHERE id = $1` (sqlx `fetch_optional`). -/
def Table.selectById {α : Type} (t : Table α) (getId : α → Int) (i : Int) :
    Option α :=
  t.rows.find? (fun r => getId r == i)

/-- Statement `INSERT INTO t (...) VALUES (...) RETURNING id` (sqlx `fetch_one`):
`mk` builds the stored row from the generated id. -/
def Table.insertReturning {α : Type} (t : Table α) (mk : Int → α) :
    Table α × Int :=
  ({ rows := t.rows ++ [mk t.nextId], nextId := t.nextId + 1 }, t.nextId)

/-- Statement `DELETE FROM t WHERE id = $1 RETURNING id` (sqlx `fetch_optional`):
removes the rows whose id matches and reports the id when one matched. -/
def Table.deleteById {α : Type} (t : Table α) (getId : α → Int) (i : Int) :
    Table α × Option Int :=
  if t.rows.any (fun r => getId r == i) then
    ({ rows := t.rows.filter (fun r => getId r != i), nextId := t.nextId },
      some i)
  else
    (t, none)

/-- The database the handlers run against.  The first six tables are the
ones the source's SQL statements name; `stock_entries` is the stock
movement ledger table of the schema, which no exposed statement touches. -/
structure DB where
  products : Table Product
  units : Table Unit
  unit_conversions : Table UnitConversion
  places : Table Place
  spaces : Table Space
  stock_items : Table StockItem
  stock_entries : Table StockEntry
  deriving DecidableEq

/-- Outcome of one handler invocation: an HTTP 200 with a JSON body, an
HTTP 404 with a plain-text message, the HTTP 500 produced by
`map_err(InternalServerError)?`, or a task abort from `.unwrap()` on a
driver error. -/
inductive ApiOutcome (α : Type)
  | success (body : α)
  | notFound (msg : String)
  | internalServerError
  | panicked
  deriving DecidableEq

/-- Map over the 200 body of an outcome. -/
def ApiOutcome.map {α β : Type} (f : α → β) : ApiOutcome α → ApiOutcome β
  | .success a => .success (f a)
  | .notFound m => .notFound m
  | .internalServerError => .internalServerError
  | .panicked => .panicked

/-- The 404 body `format!("No product with id \x27{}\x27 found.", id)`. -/
def noProductMsg (i : Int) : String :=
  "No product with id \x27" ++ toString i ++ "\x27 found."

/-- The 404 body `format!("No unit with id \x27{}\x27 found.", id)`. -/
def noUnitMsg (i : Int) : String :=
  "No unit with id \x27" ++ toString i ++ "\x27 found."

/-- The 404 body for unit conversions. -/
def noUnitConversionMsg (i : Int) : String :=
  "No unit conversion with id \x27" ++ toString i ++ "\x27 found."

/-- The 404 body for places. -/
def noPlaceMsg (i : Int) : String :=
  "No place with id \x27" ++ toString i ++ "\x27 found."

/-- The 404 body for spaces. -/
def noSpaceMsg (i : Int) : String :=
  "No space with id \x27" ++ toString i ++ "\x27 found."

/-- The 404 body for stock items. -/
def noStockItemMsg (i : Int) : String :=
  "No stock item with id \x27" ++ toString i ++ "\x27 found."

/-! ### The handlers of `UkisApi`, one definition per `#[oai]` method.

Each takes the database, the `dbErr` flag for its single statement, and its
parsed inputs (`Path<i32>` becomes an `Int` argument, `Json<T>` a record
argument).  Handlers that mutate return the new database next to the
outcome. -/

/-- Handler for `GET /products` — `fetch_all` then `.unwrap()`: aborts on a driver error. -/
def get_products (db : DB) (dbErr : Bool) : ApiOutcome (List Product) :=
  if dbErr then .panicked else .success db.products.selectAll

/-- Handler for `GET /products/:id` — `fetch_optional`, 404 when no row matches. -/
def get_product (db : DB) (dbErr : Bool) (i : Int) : ApiOutcome Product :=
  if dbErr then .internalServerError
  else
    match db.products.selectById Product.id i with
    | some p => .success p
    | none => .notFound (noProductMsg i)

/-- Handler for `POST /products` — INSERT of the six non-id columns, returns the
generated id.  The request body's read-only `id` is never used. -/
def new_product (db : DB) (dbErr : Bool) (product : Product) :
    DB × ApiOutcome Int :=
  if dbErr then (db, .internalServerError)
  else
    let r := db.products.insertReturning (fun i => { product with id := i })
    ({ db with products := r.1 }, .success r.2)

/-- Handler for `DELETE /products/:id` — DELETE ... RETURNING id, echoes the requested
id on success, 404 when no row matched. -/
def delete_product (db : DB) (dbErr : Bool) (i : Int) : DB × ApiOutcome Int :=
  if dbErr then (db, .internalServerError)
  else
    let r := db.products.deleteById Product.id i
    match r.2 with
    | some _ => ({ db with products := r.1 }, .success i)
    | none => (db, .notFound (noProductMsg i))

/-- Handler for `GET /units` — `fetch_all` then `.unwrap()`: aborts on a driver error. -/
def get_units (db : DB) (dbErr : Bool) : ApiOutcome (List Unit) :=
  if dbErr then .panicked else .success db.units.selectAll

/-- Handler for `GET /units/:id`. -/
def get_unit (db : DB) (dbErr : Bool) (i : Int) : ApiOutcome Unit :=
  if dbErr then .internalServerError
  else
    match db.units.selectById Unit.id i with
    | some u => .success u
    | none => .notFound (noUnitMsg i)

/-- Handler for `POST /units` — INSERT of `singular` and `plural`. -/
def new_unit (db : DB) (dbErr : Bool) (unit : Unit) : DB × ApiOutcome Int :=
  if dbErr then (db, .internalServerError)
  else
    let r := db.units.insertReturning (fun i => { unit with id := i })
    ({ db with units := r.1 }, .success r.2)

/-- Handler for `DELETE /units/:id`. -/
def delete_unit (db : DB) (dbErr : Bool) (i : Int) : DB × ApiOutcome Int :=
  if dbErr then (db, .internalServerError)
  else
    let r := db.units.deleteById Unit.id i
    match r.2 with
    | some _ => ({ db with units := r.1 }, .success i)
    | none => (db, .notFound (noUnitMsg i))

/-- Handler for `GET /unit_conversions` — `fetch_all` then `.unwrap()`: aborts on a
driver error. -/
def get_unit_conversions (db : DB) (dbErr : Bool) :
    ApiOutcome (List UnitConversion) :=
  if dbErr then .panicked else .success db.unit_conversions.selectAll

/-- Handler for `GET /unit_conversions/:id`. -/
def get_unit_conversion (db : DB) (dbErr : Bool) (i : Int) :
    ApiOutcome UnitConversion :=
  if dbErr then .internalServerError
  else
    match db.unit_conversions.selectById UnitConversion.id i with
    | some uc => .success uc
    | none => .notFound (noUnitConversionMsg i)

/-- Handler for `POST /unit_conversions` — INSERT of `from_unit_id`, `to_unit_id`,
`factor`, with no check that the referenced units exist. -/
def new_unit_conversion (db : DB) (dbErr : Bool) (conversion : UnitConversion) :
    DB × ApiOutcome Int :=
  if dbErr then (db, .internalServerError)
  else
    let r := db.unit_conversions.insertReturning
      (fun i => { conversion with id := i })
    ({ db with unit_conversions := r.1 }, .success r.2)

/-- Handler for `DELETE /unit_conversions/:id`. -/
def delete_unit_conversion (db : DB) (dbErr : Bool) (i : Int) :
    DB × ApiOutcome Int :=
  if dbErr then (db, .internalServerError)
  else
    let r := db.unit_conversions.deleteById UnitConversion.id i
    match r.2 with
    | some _ => ({ db with unit_conversions := r.1 }, .success i)
    | none => (db, .notFound (noUnitConversionMsg i))

/-- Handler for `GET /places` — `fetch_all` with `map_err(InternalServerError)?`. -/
def get_places (db : DB) (dbErr : Bool) : ApiOutcome (List Place) :=
  if dbErr then .internalServerError else .success db.places.selectAll

/-- Handler for `GET /places/:id`. -/
def get_place (db : DB) (dbErr : Bool) (i : Int) : ApiOutcome Place :=
  if dbErr then .internalServerError
  else
    match db.places.selectById Place.id i with
    | some p => .success p
    | none => .notFound (noPlaceMsg i)

/-- Handler for `POST /place` (note the singular path in the source) — INSERT of
`name` and `description`. -/
def new_place (db : DB) (dbErr : Bool) (place : Place) : DB × ApiOutcome Int :=
  if dbErr then (db, .internalServerError)
  else
    let r := db.places.insertReturning (fun i => { place with id := i })
    ({ db with places := r.1 }, .success r.2)

/-- Handler for `DELETE /places/:id`. -/
def delete_place (db : DB) (dbErr : Bool) (i : Int) : DB × ApiOutcome Int :=
  if dbErr then (db, .internalServerError)
  else
    let r := db.places.deleteById Place.id i
    match r.2 with
    | some _ => ({ db with places := r.1 }, .success i)
    | none => (db, .notFound (noPlaceMsg i))

/-- Handler for `GET /spaces` — `fetch_all` with `map_err(InternalServerError)?`. -/
def get_spaces (db : DB) (dbErr : Bool) : ApiOutcome (List Space) :=
  if dbErr then .internalServerError else .success db.spaces.selectAll

/-- Handler for `GET /spaces/:id`. -/
def get_space (db : DB) (dbErr : Bool) (i : Int) : ApiOutcome Space :=
  if dbErr then .internalServerError
  else
    match db.spaces.selectById Space.id i with
    | some s => .success s
    | none => .notFound (noSpaceMsg i)

/-- Handler for `POST /space` (singular path in the source) — INSERT of `name` and
`description`. -/
def new_space (db : DB) (dbErr : Bool) (space : Space) : DB × ApiOutcome Int :=
  if dbErr then (db, .internalServerError)
  else
    let r := db.spaces.insertReturning (fun i => { space with id := i })
    ({ db with spaces := r.1 }, .success r.2)

/-- Handler for `DELETE /spaces/:id`. -/
def delete_space (db : DB) (dbErr : Bool) (i : Int) : DB × ApiOutcome Int :=
  if dbErr then (db, .internalServerError)
  else
    let r := db.spaces.deleteById Space.id i
    match r.2 with
    | some _ => ({ db with spaces := r.1 }, .success i)
    | none => (db, .notFound (noSpaceMsg i))

/-- Handler for `GET /stock_items` — `fetch_all` with `map_err(InternalServerError)?`. -/
def get_stock_items (db : DB) (dbErr : Bool) : ApiOutcome (List StockItem) :=
  if dbErr then .internalServerError else .success db.stock_items.selectAll

/-- Handler for `GET /stock_items/:id`. -/
def get_stock_item (db : DB) (dbErr : Bool) (i : Int) : ApiOutcome StockItem :=
  if dbErr then .internalServerError
  else
    match db.stock_items.selectById StockItem.id i with
    | some it => .success it
    | none => .notFound (noStockItemMsg i)

/-- Handler for `POST /stock_item` (singular path in the source) — the INSERT names only
`product_id`, `space_id` and `stock_quantity`; the body's `best_by_date`
and read-only `id` are never bound, so the stored row's `best_by_date` is
the column default NULL. -/
def new_stock_item (db : DB) (dbErr : Bool) (item : StockItem) :
    DB × ApiOutcome Int :=
  if dbErr then (db, .internalServerError)
  else
    let r := db.stock_items.insertReturning (fun i =>
      { id := i, product_id := item.product_id, space_id := item.space_id,
        stock_quantity := item.stock_quantity, best_by_date := none })
    ({ db with stock_items := r.1 }, .success r.2)

/-- Handler for `DELETE /stock_item/:id` (singular path in the source). -/
def delete_stock_item (db : DB) (dbErr : Bool) (i : Int) :
    DB × ApiOutcome Int :=
  if dbErr then (db, .internalServerError)
  else
    let r := db.stock_items.deleteById StockItem.id i
    match r.2 with
    | some _ => ({ db with stock_items := r.1 }, .success i)
    | none => (db, .notFound (noStockItemMsg i))

/-! ### Route and statement metadata, transcribed from the `#[oai]`
attributes and the SQL strings of `src/main.rs`. -/

/-- HTTP methods used by `UkisApi`. -/
inductive Method
  | get
  | post
  | del
  deriving DecidableEq

/-- One constructor per `async fn` of the `#[OpenApi] impl UkisApi` block. -/
inductive HandlerId
  | getProducts | getProduct | newProduct | deleteProduct
  | getUnits | getUnit | newUnit | deleteUnit
  | getUnitConversions | getUnitConversion | newUnitConversion
  | deleteUnitConversion
  | getPlaces | getPlace | newPlace | deletePlace
  | getSpaces | getSpace | newSpace | deleteSpace
  | getStockItems | getStockItem | newStockItem | deleteStockItem
  deriving DecidableEq

/-- The entity kinds (tables) of the relational schema. -/
inductive EntityKind
  | products
  | units
  | unitConversions
  | places
  | spaces
  | stockItems
  | stockEntries
  deriving DecidableEq

/-- The four handler shapes of the spec. -/
inductive CrudKind
  | listAll
  | getById
  | create
  | deleteById
  deriving DecidableEq

/-- The route table of `UkisApi`: every `#[oai(path, method)]` attribute,
in source order, paired with its handler. -/
def ukisRoutes : List (String × Method × HandlerId) :=
  [("/products", .get, .getProducts),
   ("/products/:id", .get, .getProduct),
   ("/products", .post, .newProduct),
   ("/products/:id", .del, .deleteProduct),
   ("/units", .get, .getUnits),
   ("/units/:id", .get, .getUnit),
   ("/units", .post, .newUnit),
   ("/units/:id", .del, .deleteUnit),
   ("/unit_conversions", .get, .getUnitConversions),
   ("/unit_conversions/:id", .get, .getUnitConversion),
   ("/unit_conversions", .post, .newUnitConversion),
   ("/unit_conversions/:id", .del, .deleteUnitConversion),
   ("/places", .get, .getPlaces),
   ("/places/:id", .get, .getPlace),
   ("/place", .post, .newPlace),
   ("/places/:id", .del, .deletePlace),
   ("/spaces", .get, .getSpaces),
   ("/spaces/:id", .get, .getSpace),
   ("/space", .post, .newSpace),
   ("/spaces/:id", .del, .deleteSpace),
   ("/stock_items", .get, .getStockItems),
   ("/stock_items/:id", .get, .getStockItem),
   ("/stock_item", .post, .newStockItem),
   ("/stock_item/:id", .del, .deleteStockItem)]

/-- The handlers the API exposes. -/
def ukisHandlers : List HandlerId :=
  ukisRoutes.map (fun r => r.2.2)

/-- The table named in the one SQL statement of each handler. -/
def entityOf : HandlerId → EntityKind
  | .getProducts | .getProduct | .newProduct | .deleteProduct =>
      .products
  | .getUnits | .getUnit | .newUnit | .deleteUnit =>
      .units
  | .getUnitConversions | .getUnitConversion | .newUnitConversion
  | .deleteUnitConversion =>
      .unitConversions
  | .getPlaces | .getPlace | .newPlace | .deletePlace =>
      .places
  | .getSpaces | .getSpace | .newSpace | .deleteSpace =>
      .spaces
  | .getStockItems | .getStockItem | .newStockItem | .deleteStockItem =>
      .stockItems

/-- The CRUD shape of each handler. -/
def crudOf : HandlerId → CrudKind
  | .getProducts | .getUnits | .getUnitConversions | .getPlaces
  | .getSpaces | .getStockItems =>
      .listAll
  | .getProduct | .getUnit | .getUnitConversion | .getPlace
  | .getSpace | .getStockItem =>
      .getById
  | .newProduct | .newUnit | .newUnitConversion | .newPlace
  | .newSpace | .newStockItem =>
      .create
  | .deleteProduct | .deleteUnit | .deleteUnitConversion | .deletePlace
  | .deleteSpace | .deleteStockItem =>
      .deleteById

/-- One SQL statement: the table it names, its shape, and how many `$n`
bind parameters it carries (all runtime values reach the statement as
bind parameters via the `sqlx::query!` macros, never by interpolation
into the SQL text). -/
structure SqlStmt where
  table : EntityKind
  kind : CrudKind
  bindParams : Nat
  deriving DecidableEq

/-- The SQL statements each handler executes, transcribed from the
`sqlx::query!` / `sqlx::query_as!` invocations: a single statement each,
and no `BEGIN`/`COMMIT` anywhere in the source. -/
def sqlStatements : HandlerId → List SqlStmt
  | .getProducts => [⟨.products, .listAll, 0⟩]
  | .getProduct => [⟨.products, .getById, 1⟩]
  | .newProduct => [⟨.products, .create, 6⟩]
  | .deleteProduct => [⟨.products, .deleteById, 1⟩]
  | .getUnits => [⟨.units, .listAll, 0⟩]
  | .getUnit => [⟨.units, .getById, 1⟩]
  | .newUnit => [⟨.units, .create, 2⟩]
  | .deleteUnit => [⟨.units, .deleteById, 1⟩]
  | .getUnitConversions => [⟨.unitConversions, .listAll, 0⟩]
  | .getUnitConversion => [⟨.unitConversions, .getById, 1⟩]
  | .newUnitConversion => [⟨.unitConversions, .create, 3⟩]
  | .deleteUnitConversion => [⟨.unitConversions, .deleteById, 1⟩]
  | .getPlaces => [⟨.places, .listAll, 0⟩]
  | .getPlace => [⟨.places, .getById, 1⟩]
  | .newPlace => [⟨.places, .create, 2⟩]
  | .deletePlace => [⟨.places, .deleteById, 1⟩]
  | .getSpaces => [⟨.spaces, .listAll, 0⟩]
  | .getSpace => [⟨.spaces, .getById, 1⟩]
  | .newSpace => [⟨.spaces, .create, 2⟩]
  | .deleteSpace => [⟨.spaces, .deleteById, 1⟩]
  | .getStockItems => [⟨.stockItems, .listAll, 0⟩]
  | .getStockItem => [⟨.stockItems, .getById, 1⟩]
  | .newStockItem => [⟨.stockItems, .create, 3⟩]
  | .deleteStockItem => [⟨.stockItems, .deleteById, 1⟩]

/-- Whether the handler consumes its query `Result` with `.unwrap()`
(aborting the task on a driver error) instead of
`.map_err(InternalServerError)?`. -/
def unwrapsOnDbError : HandlerId → Bool
  | .getProducts | .getUnits | .getUnitConversions => true
  | _ => false

/-! ### A single dispatcher over all 24 handlers, for the claims that
quantify over every endpoint. -/

/-- A parsed request: one constructor per route, carrying the path
parameter or the parsed JSON body where the handler takes one. -/
inductive Request
  | getProducts
  | getProduct (i : Int)
  | newProduct (p : Product)
  | deleteProduct (i : Int)
  | getUnits
  | getUnit (i : Int)
  | newUnit (u : Unit)
  | deleteUnit (i : Int)
  | getUnitConversions
  | getUnitConversion (i : Int)
  | newUnitConversion (c : UnitConversion)
  | deleteUnitConversion (i : Int)
  | getPlaces
  | getPlace (i : Int)
  | newPlace (p : Place)
  | deletePlace (i : Int)
  | getSpaces
  | getSpace (i : Int)
  | newSpace (s : Space)
  | deleteSpace (i : Int)
  | getStockItems
  | getStockItem (i : Int)
  | newStockItem (it : StockItem)
  | deleteStockItem (i : Int)
  deriving DecidableEq

/-- The handler a request is routed to. -/
def Request.handlerId : Request → HandlerId
  | .getProducts => .getProducts
  | .getProduct _ => .getProduct
  | .newProduct _ => .newProduct
  | .deleteProduct _ => .deleteProduct
  | .getUnits => .getUnits
  | .getUnit _ => .getUnit
  | .newUnit _ => .newUnit
  | .deleteUnit _ => .deleteUnit
  | .getUnitConversions => .getUnitConversions
  | .getUnitConversion _ => .getUnitConversion
  | .newUnitConversion _ => .newUnitConversion
  | .deleteUnitConversion _ => .deleteUnitConversion
  | .getPlaces => .getPlaces
  | .getPlace _ => .getPlace
  | .newPlace _ => .newPlace
  | .deletePlace _ => .deletePlace
  | .getSpaces => .getSpaces
  | .getSpace _ => .getSpace
  | .newSpace _ => .newSpace
  | .deleteSpace _ => .deleteSpace
  | .getStockItems => .getStockItems
  | .getStockItem _ => .getStockItem
  | .newStockItem _ => .newStockItem
  | .deleteStockItem _ => .deleteStockItem

/-- A JSON response body: one constructor per body shape the API serves. -/
inductive RespBody
  | products (l : List Product)
  | product (p : Product)
  | units (l : List Unit)
  | unit (u : Unit)
  | unitConversions (l : List UnitConversion)
  | unitConversion (c : UnitConversion)
  | places (l : List Place)
  | place (p : Place)
  | spaces (l : List Space)
  | space (s : Space)
  | stockItems (l : List StockItem)
  | stockItem (it : StockItem)
  | id (i : Int)
  deriving DecidableEq

/-- Dispatch a parsed request to its handler (the `Route` built in `main`
maps each verb/path pair to exactly one of the 24 handlers). -/
def handle (db : DB) (dbErr : Bool) : Request → DB × ApiOutcome RespBody
  | .getProducts => (db, (get_products db dbErr).map RespBody.products)
  | .getProduct i => (db, (get_product db dbErr i).map RespBody.product)
  | .newProduct p =>
      let r := new_product db dbErr p
      (r.1, r.2.map RespBody.id)
  | .deleteProduct i =>
      let r := delete_product db dbErr i
      (r.1, r.2.map RespBody.id)
  | .getUnits => (db, (get_units db dbErr).map RespBody.units)
  | .getUnit i => (db, (get_unit db dbErr i).map RespBody.unit)
  | .newUnit u =>
      let r := new_unit db dbErr u
      (r.1, r.2.map RespBody.id)
  | .deleteUnit i =>
      let r := delete_unit db dbErr i
      (r.1, r.2.map RespBody.id)
  | .getUnitConversions =>
      (db, (get_unit_conversions db dbErr).map RespBody.unitConversions)
  | .getUnitConversion i =>
      (db, (get_unit_conversion db dbErr i).map RespBody.unitConversion)
  | .newUnitConversion c =>
      let r := new_unit_conversion db dbErr c
      (r.1, r.2.map RespBody.id)
  | .deleteUnitConversion i =>
      let r := delete_unit_conversion db dbErr i
      (r.1, r.2.map RespBody.id)
  | .getPlaces => (db, (get_places db dbErr).map RespBody.places)
  | .getPlace i => (db, (get_place db dbErr i).map RespBody.place)
  | .newPlace p =>
      let r := new_place db dbErr p
      (r.1, r.2.map RespBody.id)
  | .deletePlace i =>
      let r := delete_place db dbErr i
      (r.1, r.2.map RespBody.id)
  | .getSpaces => (db, (get_spaces db dbErr).map RespBody.spaces)
  | .getSpace i => (db, (get_space db dbErr i).map RespBody.space)
  | .newSpace s =>
      let r := new_space db dbErr s
      (r.1, r.2.map RespBody.id)
  | .deleteSpace i =>
      let r := delete_space db dbErr i
      (r.1, r.2.map RespBody.id)
  | .getStockItems => (db, (get_stock_items db dbErr).map RespBody.stockItems)
  | .getStockItem i => (db, (get_stock_item db dbErr i).map RespBody.stockItem)
  | .newStockItem it =>
      let r := new_stock_item db dbErr it
      (r.1, r.2.map RespBody.id)
  | .deleteStockItem i =>
      let r := delete_stock_item db dbErr i
      (r.1, r.2.map RespBody.id)

/-- An HTTP request as it arrives on the wire: whatever identity or header
material the caller attaches, plus the parsed route/parameters/body.
`main` installs no authentication middleware and no handler signature
mentions headers, so only the `request` component can reach a handler. -/
structure HttpRequest where
  callerIdentity : String
  headers : List (String × String)
  request : Request

/-- Serve an HTTP request: route to `handle`; the identity and headers are
not consulted (there is nothing in the source that could consult them). -/
def handleHttp (db : DB) (dbErr : Bool) (r : HttpRequest) :
    DB × ApiOutcome RespBody :=
  handle db dbErr r.request

/-- Does the database state's table for entity `e` agree between `db` and
`dbNew`?  Used to state frame conditions per table. -/
def agreeOn (e : EntityKind) (db dbNew : DB) : Prop :=
  match e with
  | .products => dbNew.products = db.products
  | .units => dbNew.units = db.units
  | .unitConversions => dbNew.unit_conversions = db.unit_conversions
  | .places => dbNew.places = db.places
  | .spaces => dbNew.spaces = db.spaces
  | .stockItems => dbNew.stock_items = db.stock_items
  | .stockEntries => dbNew.stock_entries = db.stock_entries

/-- A database with all tables empty and every sequence at 1. -/
def emptyDB : DB :=
  { products := ⟨[], 1⟩, units := ⟨[], 1⟩, unit_conversions := ⟨[], 1⟩,
    places := ⟨[], 1⟩, spaces := ⟨[], 1⟩, stock_items := ⟨[], 1⟩,
    stock_entries := ⟨[], 1⟩ }

/-- The sequence is fresh for a table: no stored row already carries the id
the next INSERT will generate.  PostgreSQL maintains this invariant for a
serial primary-key column; `Table.insertReturning` preserves it. -/
def Table.seqFresh {α : Type} (t : Table α) (getId : α → Int) : Prop :=
  ∀ r ∈ t.rows, getId r ≠ t.nextId

/-! ### Facts about the four statement shapes. -/

theorem Table.selectById_eq_none_iff {α : Type} (t : Table α)
    (getId : α → Int) (i : Int) :
    t.selectById getId i = none ↔ ∀ r ∈ t.rows, getId r ≠ i := by
  simp [Table.selectById]

theorem Table.selectById_eq_some {α : Type} {t : Table α} {getId : α → Int}
    {i : Int} {r : α} (h : t.selectById getId i = some r) :
    r ∈ t.rows ∧ getId r = i := by
  refine ⟨List.mem_of_find?_eq_some h, ?_⟩
  simpa using List.find?_some h

theorem Table.selectById_isSome_iff {α : Type} (t : Table α)
    (getId : α → Int) (i : Int) :
    (t.selectById getId i).isSome ↔ ∃ r ∈ t.rows, getId r = i := by
  simp [Table.selectById]

theorem Table.deleteById_fst_rows {α : Type} (t : Table α)
    (getId : α → Int) (i : Int) :
    ((t.deleteById getId i).1).rows = t.rows.filter (fun r => getId r != i) := by
  unfold Table.deleteById
  split
  · rfl
  · next h =>
    have hall : ∀ r ∈ t.rows, getId r ≠ i := by
      intro r hr hc
      exact h (List.any_eq_true.mpr ⟨r, hr, by simp [hc]⟩)
    exact (List.filter_eq_self.mpr (fun a ha => by simp [hall a ha])).symm

theorem Table.deleteById_snd_eq_none_iff {α : Type} (t : Table α)
    (getId : α → Int) (i : Int) :
    (t.deleteById getId i).2 = none ↔ ∀ r ∈ t.rows, getId r ≠ i := by
  unfold Table.deleteById
  split
  · next h =>
    simp only [List.any_eq_true, beq_iff_eq] at h
    obtain ⟨r, hr, he⟩ := h
    simp only [iff_false]
    constructor
    · intro hc
      exact Option.noConfusion hc
    · exact fun hall => absurd he (hall r hr)
  · next h =>
    simp only [List.any_eq_true, beq_iff_eq, not_exists, not_and] at h
    simpa using h

theorem Table.deleteById_snd_eq_some {α : Type} (t : Table α)
    (getId : α → Int) (i : Int) (h : ∃ r ∈ t.rows, getId r = i) :
    (t.deleteById getId i).2 = some i := by
  obtain ⟨r, hr, he⟩ := h
  have hc : t.rows.any (fun r => getId r == i) = true :=
    List.any_eq_true.mpr ⟨r, hr, by simp [he]⟩
  simp [Table.deleteById, hc]

theorem Table.insert_select_roundtrip {α : Type} (t : Table α)
    (mk : Int → α) (getId : α → Int) (hfresh : t.seqFresh getId)
    (hmk : getId (mk t.nextId) = t.nextId) :
    ((t.insertReturning mk).1).selectById getId ((t.insertReturning mk).2) =
      some (mk t.nextId) := by
  simp only [Table.insertReturning, Table.selectById]
  rw [List.find?_append]
  have h1 : t.rows.find? (fun r => getId r == t.nextId) = none :=
    List.find?_eq_none.mpr (fun r hr => by simpa using hfresh r hr)
  rw [h1]
  simp [List.find?, hmk]

theorem Table.insertReturning_snd {α : Type} (t : Table α) (mk : Int → α) :
    (t.insertReturning mk).2 = t.nextId :=
  rfl

theorem Table.insertReturning_fst_rows {α : Type} (t : Table α)
    (mk : Int → α) :
    ((t.insertReturning mk).1).rows = t.rows ++ [mk t.nextId] :=
  rfl

/-! ### Sample data used by witnesses and counterexamples. -/

/-- A concrete product body. -/
def sampleProduct : Product :=
  { id := 0, name := "eggs", description := none, parent_product_id := none,
    purchase_unit_id := none, stock_unit_id := none,
    purchase_to_stock_factor := none }

/-- A concrete stock-item request body carrying a best-by date. -/
def sampleStockItemBody : StockItem :=
  { id := 0, product_id := 7, space_id := 3,
    stock_quantity := ⟨1065353216⟩, best_by_date := some ⟨739000⟩ }

/-- A database holding exactly one product, with id 1. -/
def dbWithProduct : DB :=
  { emptyDB with products := ⟨[{ sampleProduct with id := 1 }], 2⟩ }

/-! ### The claims. -/

/-- C9: for every database state, each of the six list handlers returns,
with a single 200 response, exactly the full row list of its table — no
pagination, limit or filtering. -/
theorem C9_list_handlers_return_every_row :
    ∀ db : DB,
      get_products db false = .success db.products.rows ∧
      get_units db false = .success db.units.rows ∧
      get_unit_conversions db false = .success db.unit_conversions.rows ∧
      get_places db false = .success db.places.rows ∧
      get_spaces db false = .success db.spaces.rows ∧
      get_stock_items db false = .success db.stock_items.rows :=
  fun _ => ⟨rfl, rfl, rfl, rfl, rfl, rfl⟩

/-- C4 counterexample: `get_products` consumes its query result with
`.unwrap()`, so a database error aborts the task instead of producing the
500 response the claim requires. -/
theorem C4_counterexample :
    get_products emptyDB true = .panicked ∧
    get_products emptyDB true ≠ .internalServerError := by
  exact ⟨rfl, by decide⟩

/-- C4 (amended): on a database error every handler except `get_products`,
`get_units` and `get_unit_conversions` returns HTTP 500 and leaves the
database unchanged; those three list handlers `.unwrap()` the error and
abort (panic) instead. -/
theorem C4_db_error_mapping :
    ∀ (db : DB) (req : Request),
      (handle db true req).1 = db ∧
      (handle db true req).2 =
        (if unwrapsOnDbError req.handlerId then ApiOutcome.panicked
         else ApiOutcome.internalServerError) := by
  intro db req
  cases req <;> exact ⟨rfl, rfl⟩

/-- C6: create handlers validate nothing beyond parsing: for every
well-typed body — including bodies whose `product_id`, `space_id`,
`from_unit_id`, `to_unit_id` or parent references match no existing row —
the handler issues its INSERT with the supplied values and answers 200
with the generated id, never a rejection. -/
theorem C6_create_handlers_never_reject :
    ∀ db : DB,
      (∀ p : Product,
        new_product db false p =
          ({ db with products :=
              ⟨db.products.rows ++ [{ p with id := db.products.nextId }],
                db.products.nextId + 1⟩ },
            .success db.products.nextId)) ∧
      (∀ u : Unit,
        new_unit db false u =
          ({ db with units :=
              ⟨db.units.rows ++ [{ u with id := db.units.nextId }],
                db.units.nextId + 1⟩ },
            .success db.units.nextId)) ∧
      (∀ c : UnitConversion,
        new_unit_conversion db false c =
          ({ db with unit_conversions :=
              ⟨db.unit_conversions.rows ++
                  [{ c with id := db.unit_conversions.nextId }],
                db.unit_conversions.nextId + 1⟩ },
            .success db.unit_conversions.nextId)) ∧
      (∀ p : Place,
        new_place db false p =
          ({ db with places :=
              ⟨db.places.rows ++ [{ p with id := db.places.nextId }],
                db.places.nextId + 1⟩ },
            .success db.places.nextId)) ∧
      (∀ s : Space,
        new_space db false s =
          ({ db with spaces :=
              ⟨db.spaces.rows ++ [{ s with id := db.spaces.nextId }],
                db.spaces.nextId + 1⟩ },
            .success db.spaces.nextId)) ∧
      (∀ it : StockItem,
        new_stock_item db false it =
          ({ db with stock_items :=
              ⟨db.stock_items.rows ++
                  [{ id := db.stock_items.nextId, product_id := it.product_id,
                     space_id := it.space_id,
                     stock_quantity := it.stock_quantity,
                     best_by_date := none }],
                db.stock_items.nextId + 1⟩ },
            .success db.stock_items.nextId)) :=
  fun _ =>
    ⟨fun _ => rfl, fun _ => rfl, fun _ => rfl, fun _ => rfl, fun _ => rfl,
      fun _ => rfl⟩

/-- C7: `new_stock_item` binds only `product_id`, `space_id` and
`stock_quantity`; the stored row's `best_by_date` is NULL whatever the
body carried, the returned id is the generated one, and changing the
body's read-only `id` or its `best_by_date` cannot change the result. -/
theorem C7_new_stock_item_discards_read_only_fields :
    ∀ (db : DB) (item : StockItem),
      (new_stock_item db false item).2 = .success db.stock_items.nextId ∧
      ((new_stock_item db false item).1).stock_items.rows =
        db.stock_items.rows ++
          [{ id := db.stock_items.nextId, product_id := item.product_id,
             space_id := item.space_id,
             stock_quantity := item.stock_quantity, best_by_date := none }] ∧
      ∀ (j : Int) (d : Option NaiveDate),
        new_stock_item db false { item with id := j, best_by_date := d } =
          new_stock_item db false item :=
  fun _ _ => ⟨rfl, rfl, fun _ _ => rfl⟩

/-- C2 counterexample: create-then-get is not the identity on supplied
fields for stock items.  Creating `sampleStockItemBody` (whose
`best_by_date` is `some ⟨739000⟩`) in the empty database returns id 1, but
fetching id 1 yields a record whose `best_by_date` is `none` — not the
supplied field values. -/
theorem C2_counterexample :
    (new_stock_item emptyDB false sampleStockItemBody).2 = .success 1 ∧
    get_stock_item (new_stock_item emptyDB false sampleStockItemBody).1
        false 1 =
      .success { sampleStockItemBody with id := 1, best_by_date := none } ∧
    ApiOutcome.success
        { sampleStockItemBody with id := 1, best_by_date := none } ≠
      ApiOutcome.success { sampleStockItemBody with id := 1 } := by
  refine ⟨rfl, by decide, by decide⟩

/-- C2 (amended): for products, units, unit conversions, places and spaces,
creating a record and fetching the returned id yields exactly the supplied
field values together with the generated id; for stock items the same
holds for `product_id`, `space_id` and `stock_quantity`, but the fetched
`best_by_date` is NULL regardless of the supplied value.  (Hypothesis: the
table's id sequence is fresh, as PostgreSQL guarantees for a serial
primary key.) -/
theorem C2_create_then_get_roundtrip :
    (∀ (db : DB) (p : Product), db.products.seqFresh Product.id →
      (new_product db false p).2 = .success db.products.nextId ∧
      get_product (new_product db false p).1 false db.products.nextId =
        .success { p with id := db.products.nextId }) ∧
    (∀ (db : DB) (u : Unit), db.units.seqFresh Unit.id →
      (new_unit db false u).2 = .success db.units.nextId ∧
      get_unit (new_unit db false u).1 false db.units.nextId =
        .success { u with id := db.units.nextId }) ∧
    (∀ (db : DB) (c : UnitConversion),
        db.unit_conversions.seqFresh UnitConversion.id →
      (new_unit_conversion db false c).2 =
        .success db.unit_conversions.nextId ∧
      get_unit_conversion (new_unit_conversion db false c).1 false
          db.unit_conversions.nextId =
        .success { c with id := db.unit_conversions.nextId }) ∧
    (∀ (db : DB) (p : Place), db.places.seqFresh Place.id →
      (new_place db false p).2 = .success db.places.nextId ∧
      get_place (new_place db false p).1 false db.places.nextId =
        .success { p with id := db.places.nextId }) ∧
    (∀ (db : DB) (s : Space), db.spaces.seqFresh Space.id →
      (new_space db false s).2 = .success db.spaces.nextId ∧
      get_space (new_space db false s).1 false db.spaces.nextId =
        .success { s with id := db.spaces.nextId }) ∧
    (∀ (db : DB) (it : StockItem), db.stock_items.seqFresh StockItem.id →
      (new_stock_item db false it).2 = .success db.stock_items.nextId ∧
      get_stock_item (new_stock_item db false it).1 false
          db.stock_items.nextId =
        .success { id := db.stock_items.nextId, product_id := it.product_id,
                   space_id := it.space_id,
                   stock_quantity := it.stock_quantity,
                   best_by_date := none }) := by
  refine ⟨?_, ?_, ?_, ?_, ?_, ?_⟩
  · intro db p hfresh
    refine ⟨rfl, ?_⟩
    have h : ((new_product db false p).1).products.selectById Product.id
        db.products.nextId = some { p with id := db.products.nextId } :=
      Table.insert_select_roundtrip db.products
        (fun i => { p with id := i }) Product.id hfresh rfl
    simp [get_product, h]
  · intro db u hfresh
    refine ⟨rfl, ?_⟩
    have h : ((new_unit db false u).1).units.selectById Unit.id
        db.units.nextId = some { u with id := db.units.nextId } :=
      Table.insert_select_roundtrip db.units
        (fun i => { u with id := i }) Unit.id hfresh rfl
    simp [get_unit, h]
  · intro db c hfresh
    refine ⟨rfl, ?_⟩
    have h : ((new_unit_conversion db false c).1).unit_conversions.selectById
        UnitConversion.id db.unit_conversions.nextId =
        some { c with id := db.unit_conversions.nextId } :=
      Table.insert_select_roundtrip db.unit_conversions
        (fun i => { c with id := i }) UnitConversion.id hfresh rfl
    simp [get_unit_conversion, h]
  · intro db p hfresh
    refine ⟨rfl, ?_⟩
    have h : ((new_place db false p).1).places.selectById Place.id
        db.places.nextId = some { p with id := db.places.nextId } :=
      Table.insert_select_roundtrip db.places
        (fun i => { p with id := i }) Place.id hfresh rfl
    simp [get_place, h]
  · intro db s hfresh
    refine ⟨rfl, ?_⟩
    have h : ((new_space db false s).1).spaces.selectById Space.id
        db.spaces.nextId = some { s with id := db.spaces.nextId } :=
      Table.insert_select_roundtrip db.spaces
        (fun i => { s with id := i }) Space.id hfresh rfl
    simp [get_space, h]
  · intro db it hfresh
    refine ⟨rfl, ?_⟩
    have h : ((new_stock_item db false it).1).stock_items.selectById
        StockItem.id db.stock_items.nextId =
        some { id := db.stock_items.nextId, product_id := it.product_id,
               space_id := it.space_id,
               stock_quantity := it.stock_quantity, best_by_date := none } :=
      Table.insert_select_roundtrip db.stock_items
        (fun i => { id := i, product_id := it.product_id,
                    space_id := it.space_id,
                    stock_quantity := it.stock_quantity,
                    best_by_date := none })
        StockItem.id hfresh rfl
    simp [get_stock_item, h]

/-- Witness for C2's amended theorem at a concrete input: creating
`sampleProduct` in the empty database returns id 1, and fetching id 1
returns the supplied fields with id 1. -/
theorem C2_create_then_get_roundtrip_witness :
    (new_product emptyDB false sampleProduct).2 = .success 1 ∧
    get_product (new_product emptyDB false sampleProduct).1 false 1 =
      .success { sampleProduct with id := 1 } :=
  C2_create_then_get_roundtrip.1 emptyDB sampleProduct
    (fun r hr => absurd hr (List.not_mem_nil r))

/-- C3: for every by-id endpoint of every entity, the response is the 404
message naming the id exactly when no row with that id exists; when such a
row exists, get answers 200 with a stored row carrying that id, and delete
removes precisely the rows with that id and answers 200 with the requested
id. -/
theorem C3_by_id_endpoints :
    (∀ (db : DB) (i : Int),
      (get_product db false i = .notFound (noProductMsg i) ↔
        ∀ r ∈ db.products.rows, r.id ≠ i) ∧
      (∀ r, get_product db false i = .success r →
        r ∈ db.products.rows ∧ r.id = i) ∧
      ((∃ r ∈ db.products.rows, r.id = i) →
        ∃ r, get_product db false i = .success r) ∧
      ((delete_product db false i).2 = .notFound (noProductMsg i) ↔
        ∀ r ∈ db.products.rows, r.id ≠ i) ∧
      ((delete_product db false i).1.products.rows =
        db.products.rows.filter (fun r => r.id != i)) ∧
      ((∃ r ∈ db.products.rows, r.id = i) →
        (delete_product db false i).2 = .success i)) ∧
    (∀ (db : DB) (i : Int),
      (get_unit db false i = .notFound (noUnitMsg i) ↔
        ∀ r ∈ db.units.rows, r.id ≠ i) ∧
      (∀ r, get_unit db false i = .success r →
        r ∈ db.units.rows ∧ r.id = i) ∧
      ((∃ r ∈ db.units.rows, r.id = i) →
        ∃ r, get_unit db false i = .success r) ∧
      ((delete_unit db false i).2 = .notFound (noUnitMsg i) ↔
        ∀ r ∈ db.units.rows, r.id ≠ i) ∧
      ((delete_unit db false i).1.units.rows =
        db.units.rows.filter (fun r => r.id != i)) ∧
      ((∃ r ∈ db.units.rows, r.id = i) →
        (delete_unit db false i).2 = .success i)) ∧
    (∀ (db : DB) (i : Int),
      (get_unit_conversion db false i = .notFound (noUnitConversionMsg i) ↔
        ∀ r ∈ db.unit_conversions.rows, r.id ≠ i) ∧
      (∀ r, get_unit_conversion db false i = .success r →
        r ∈ db.unit_conversions.rows ∧ r.id = i) ∧
      ((∃ r ∈ db.unit_conversions.rows, r.id = i) →
        ∃ r, get_unit_conversion db false i = .success r) ∧
      ((delete_unit_conversion db false i).2 =
          .notFound (noUnitConversionMsg i) ↔
        ∀ r ∈ db.unit_conversions.rows, r.id ≠ i) ∧
      ((delete_unit_conversion db false i).1.unit_conversions.rows =
        db.unit_conversions.rows.filter (fun r => r.id != i)) ∧
      ((∃ r ∈ db.unit_conversions.rows, r.id = i) →
        (delete_unit_conversion db false i).2 = .success i)) ∧
    (∀ (db : DB) (i : Int),
      (get_place db false i = .notFound (noPlaceMsg i) ↔
        ∀ r ∈ db.places.rows, r.id ≠ i) ∧
      (∀ r, get_place db false i = .success r →
        r ∈ db.places.rows ∧ r.id = i) ∧
      ((∃ r ∈ db.places.rows, r.id = i) →
        ∃ r, get_place db false i = .success r) ∧
      ((delete_place db false i).2 = .notFound (noPlaceMsg i) ↔
        ∀ r ∈ db.places.rows, r.id ≠ i) ∧
      ((delete_place db false i).1.places.rows =
        db.places.rows.filter (fun r => r.id != i)) ∧
      ((∃ r ∈ db.places.rows, r.id = i) →
        (delete_place db false i).2 = .success i)) ∧
    (∀ (db : DB) (i : Int),
      (get_space db false i = .notFound (noSpaceMsg i) ↔
        ∀ r ∈ db.spaces.rows, r.id ≠ i) ∧
      (∀ r, get_space db false i = .success r →
        r ∈ db.spaces.rows ∧ r.id = i) ∧
      ((∃ r ∈ db.spaces.rows, r.id = i) →
        ∃ r, get_space db false i = .success r) ∧
      ((delete_space db false i).2 = .notFound (noSpaceMsg i) ↔
        ∀ r ∈ db.spaces.rows, r.id ≠ i) ∧
      ((delete_space db false i).1.spaces.rows =
        db.spaces.rows.filter (fun r => r.id != i)) ∧
      ((∃ r ∈ db.spaces.rows, r.id = i) →
        (delete_space db false i).2 = .success i)) ∧
    (∀ (db : DB) (i : Int),
      (get_stock_item db false i = .notFound (noStockItemMsg i) ↔
        ∀ r ∈ db.stock_items.rows, r.id ≠ i) ∧
      (∀ r, get_stock_item db false i = .success r →
        r ∈ db.stock_items.rows ∧ r.id = i) ∧
      ((∃ r ∈ db.stock_items.rows, r.id = i) →
        ∃ r, get_stock_item db false i = .success r) ∧
      ((delete_stock_item db false i).2 = .notFound (noStockItemMsg i) ↔
        ∀ r ∈ db.stock_items.rows, r.id ≠ i) ∧
      ((delete_stock_item db false i).1.stock_items.rows =
        db.stock_items.rows.filter (fun r => r.id != i)) ∧
      ((∃ r ∈ db.stock_items.rows, r.id = i) →
        (delete_stock_item db false i).2 = .success i)) := by
  refine ⟨?_, ?_, ?_, ?_, ?_, ?_⟩
  · intro db i
    refine ⟨?_, ?_, ?_, ?_, ?_, ?_⟩
    · rw [← Table.selectById_eq_none_iff db.products Product.id i]
      cases hsel : db.products.selectById Product.id i with
      | some r => simp [get_product, hsel]
      | none => simp [get_product, hsel]
    · intro r h
      cases hsel : db.products.selectById Product.id i with
      | some q =>
        have hq : q = r := by simpa [get_product, hsel] using h
        exact hq ▸ Table.selectById_eq_some hsel
      | none => simp [get_product, hsel] at h
    · intro hex
      cases hsel : db.products.selectById Product.id i with
      | some q => exact ⟨q, by simp [get_product, hsel]⟩
      | none =>
        rw [Table.selectById_eq_none_iff] at hsel
        obtain ⟨r, hr, he⟩ := hex
        exact absurd he (hsel r hr)
    · rw [← Table.deleteById_snd_eq_none_iff db.products Product.id i]
      cases hd : (db.products.deleteById Product.id i).2 with
      | some j => simp [delete_product, hd]
      | none => simp [delete_product, hd]
    · cases hd : (db.products.deleteById Product.id i).2 with
      | some j =>
        have hs : (delete_product db false i).1.products.rows =
            (db.products.deleteById Product.id i).1.rows := by
          simp [delete_product, hd]
        rw [hs, Table.deleteById_fst_rows]
      | none =>
        have hall := (Table.deleteById_snd_eq_none_iff db.products
          Product.id i).mp hd
        have hs : (delete_product db false i).1 = db := by
          simp [delete_product, hd]
        rw [hs]
        exact (List.filter_eq_self.mpr (fun a ha => by
          simp [hall a ha])).symm
    · intro hex
      have hd : (db.products.deleteById Product.id i).2 = some i :=
        Table.deleteById_snd_eq_some db.products Product.id i hex
      simp [delete_product, hd]
  · intro db i
    refine ⟨?_, ?_, ?_, ?_, ?_, ?_⟩
    · rw [← Table.selectById_eq_none_iff db.units Unit.id i]
      cases hsel : db.units.selectById Unit.id i with
      | some r => simp [get_unit, hsel]
      | none => simp [get_unit, hsel]
    · intro r h
      cases hsel : db.units.selectById Unit.id i with
      | some q =>
        have hq : q = r := by simpa [get_unit, hsel] using h
        exact hq ▸ Table.selectById_eq_some hsel
      | none => simp [get_unit, hsel] at h
    · intro hex
      cases hsel : db.units.selectById Unit.id i with
      | some q => exact ⟨q, by simp [get_unit, hsel]⟩
      | none =>
        rw [Table.selectById_eq_none_iff] at hsel
        obtain ⟨r, hr, he⟩ := hex
        exact absurd he (hsel r hr)
    · rw [← Table.deleteById_snd_eq_none_iff db.units Unit.id i]
      cases hd : (db.units.deleteById Unit.id i).2 with
      | some j => simp [delete_unit, hd]
      | none => simp [delete_unit, hd]
    · cases hd : (db.units.deleteById Unit.id i).2 with
      | some j =>
        have hs : (delete_unit db false i).1.units.rows =
            (db.units.deleteById Unit.id i).1.rows := by
          simp [delete_unit, hd]
        rw [hs, Table.deleteById_fst_rows]
      | none =>
        have hall := (Table.deleteById_snd_eq_none_iff db.units
          Unit.id i).mp hd
        have hs : (delete_unit db false i).1 = db := by
          simp [delete_unit, hd]
        rw [hs]
        exact (List.filter_eq_self.mpr (fun a ha => by
          simp [hall a ha])).symm
    · intro hex
      have hd : (db.units.deleteById Unit.id i).2 = some i :=
        Table.deleteById_snd_eq_some db.units Unit.id i hex
      simp [delete_unit, hd]
  · intro db i
    refine ⟨?_, ?_, ?_, ?_, ?_, ?_⟩
    · rw [← Table.selectById_eq_none_iff db.unit_conversions
        UnitConversion.id i]
      cases hsel : db.unit_conversions.selectById UnitConversion.id i with
      | some r => simp [get_unit_conversion, hsel]
      | none => simp [get_unit_conversion, hsel]
    · intro r h
      cases hsel : db.unit_conversions.selectById UnitConversion.id i with
      | some q =>
        have hq : q = r := by simpa [get_unit_conversion, hsel] using h
        exact hq ▸ Table.selectById_eq_some hsel
      | none => simp [get_unit_conversion, hsel] at h
    · intro hex
      cases hsel : db.unit_conversions.selectById UnitConversion.id i with
      | some q => exact ⟨q, by simp [get_unit_conversion, hsel]⟩
      | none =>
        rw [Table.selectById_eq_none_iff] at hsel
        obtain ⟨r, hr, he⟩ := hex
        exact absurd he (hsel r hr)
    · rw [← Table.deleteById_snd_eq_none_iff db.unit_conversions
        UnitConversion.id i]
      cases hd : (db.unit_conversions.deleteById UnitConversion.id i).2 with
      | some j => simp [delete_unit_conversion, hd]
      | none => simp [delete_unit_conversion, hd]
    · cases hd : (db.unit_conversions.deleteById UnitConversion.id i).2 with
      | some j =>
        have hs : (delete_unit_conversion db false i).1.unit_conversions.rows =
            (db.unit_conversions.deleteById UnitConversion.id i).1.rows := by
          simp [delete_unit_conversion, hd]
        rw [hs, Table.deleteById_fst_rows]
      | none =>
        have hall := (Table.deleteById_snd_eq_none_iff db.unit_conversions
          UnitConversion.id i).mp hd
        have hs : (delete_unit_conversion db false i).1 = db := by
          simp [delete_unit_conversion, hd]
        rw [hs]
        exact (List.filter_eq_self.mpr (fun a ha => by
          simp [hall a ha])).symm
    · intro hex
      have hd : (db.unit_conversions.deleteById UnitConversion.id i).2 =
          some i :=
        Table.deleteById_snd_eq_some db.unit_conversions UnitConversion.id
          i hex
      simp [delete_unit_conversion, hd]
  · intro db i
    refine ⟨?_, ?_, ?_, ?_, ?_, ?_⟩
    · rw [← Table.selectById_eq_none_iff db.places Place.id i]
      cases hsel : db.places.selectById Place.id i with
      | some r => simp [get_place, hsel]
      | none => simp [get_place, hsel]
    · intro r h
      cases hsel : db.places.selectById Place.id i with
      | some q =>
        have hq : q = r := by simpa [get_place, hsel] using h
        exact hq ▸ Table.selectById_eq_some hsel
      | none => simp [get_place, hsel] at h
    · intro hex
      cases hsel : db.places.selectById Place.id i with
      | some q => exact ⟨q, by simp [get_place, hsel]⟩
      | none =>
        rw [Table.selectById_eq_none_iff] at hsel
        obtain ⟨r, hr, he⟩ := hex
        exact absurd he (hsel r hr)
    · rw [← Table.deleteById_snd_eq_none_iff db.places Place.id i]
      cases hd : (db.places.deleteById Place.id i).2 with
      | some j => simp [delete_place, hd]
      | none => simp [delete_place, hd]
    · cases hd : (db.places.deleteById Place.id i).2 with
      | some j =>
        have hs : (delete_place db false i).1.places.rows =
            (db.places.deleteById Place.id i).1.rows := by
          simp [delete_place, hd]
        rw [hs, Table.deleteById_fst_rows]
      | none =>
        have hall := (Table.deleteById_snd_eq_none_iff db.places
          Place.id i).mp hd
        have hs : (delete_place db false i).1 = db := by
          simp [delete_place, hd]
        rw [hs]
        exact (List.filter_eq_self.mpr (fun a ha => by
          simp [hall a ha])).symm
    · intro hex
      have hd : (db.places.deleteById Place.id i).2 = some i :=
        Table.deleteById_snd_eq_some db.places Place.id i hex
      simp [delete_place, hd]
  · intro db i
    refine ⟨?_, ?_, ?_, ?_, ?_, ?_⟩
    · rw [← Table.selectById_eq_none_iff db.spaces Space.id i]
      cases hsel : db.spaces.selectById Space.id i with
      | some r => simp [get_space, hsel]
      | none => simp [get_space, hsel]
    · intro r h
      cases hsel : db.spaces.selectById Space.id i with
      | some q =>
        have hq : q = r := by simpa [get_space, hsel] using h
        exact hq ▸ Table.selectById_eq_some hsel
      | none => simp [get_space, hsel] at h
    · intro hex
      cases hsel : db.spaces.selectById Space.id i with
      | some q => exact ⟨q, by simp [get_space, hsel]⟩
      | none =>
        rw [Table.selectById_eq_none_iff] at hsel
        obtain ⟨r, hr, he⟩ := hex
        exact absurd he (hsel r hr)
    · rw [← Table.deleteById_snd_eq_none_iff db.spaces Space.id i]
      cases hd : (db.spaces.deleteById Space.id i).2 with
      | some j => simp [delete_space, hd]
      | none => simp [delete_space, hd]
    · cases hd : (db.spaces.deleteById Space.id i).2 with
      | some j =>
        have hs : (delete_space db false i).1.spaces.rows =
            (db.spaces.deleteById Space.id i).1.rows := by
          simp [delete_space, hd]
        rw [hs, Table.deleteById_fst_rows]
      | none =>
        have hall := (Table.deleteById_snd_eq_none_iff db.spaces
          Space.id i).mp hd
        have hs : (delete_space db false i).1 = db := by
          simp [delete_space, hd]
        rw [hs]
        exact (List.filter_eq_self.mpr (fun a ha => by
          simp [hall a ha])).symm
    · intro hex
      have hd : (db.spaces.deleteById Space.id i).2 = some i :=
        Table.deleteById_snd_eq_some db.spaces Space.id i hex
      simp [delete_space, hd]
  · intro db i
    refine ⟨?_, ?_, ?_, ?_, ?_, ?_⟩
    · rw [← Table.selectById_eq_none_iff db.stock_items StockItem.id i]
      cases hsel : db.stock_items.selectById StockItem.id i with
      | some r => simp [get_stock_item, hsel]
      | none => simp [get_stock_item, hsel]
    · intro r h
      cases hsel : db.stock_items.selectById StockItem.id i with
      | some q =>
        have hq : q = r := by simpa [get_stock_item, hsel] using h
        exact hq ▸ Table.selectById_eq_some hsel
      | none => simp [get_stock_item, hsel] at h
    · intro hex
      cases hsel : db.stock_items.selectById StockItem.id i with
      | some q => exact ⟨q, by simp [get_stock_item, hsel]⟩
      | none =>
        rw [Table.selectById_eq_none_iff] at hsel
        obtain ⟨r, hr, he⟩ := hex
        exact absurd he (hsel r hr)
    · rw [← Table.deleteById_snd_eq_none_iff db.stock_items StockItem.id i]
      cases hd : (db.stock_items.deleteById StockItem.id i).2 with
      | some j => simp [delete_stock_item, hd]
      | none => simp [delete_stock_item, hd]
    · cases hd : (db.stock_items.deleteById StockItem.id i).2 with
      | some j =>
        have hs : (delete_stock_item db false i).1.stock_items.rows =
            (db.stock_items.deleteById StockItem.id i).1.rows := by
          simp [delete_stock_item, hd]
        rw [hs, Table.deleteById_fst_rows]
      | none =>
        have hall := (Table.deleteById_snd_eq_none_iff db.stock_items
          StockItem.id i).mp hd
        have hs : (delete_stock_item db false i).1 = db := by
          simp [delete_stock_item, hd]
        rw [hs]
        exact (List.filter_eq_self.mpr (fun a ha => by
          simp [hall a ha])).symm
    · intro hex
      have hd : (db.stock_items.deleteById StockItem.id i).2 = some i :=
        Table.deleteById_snd_eq_some db.stock_items StockItem.id i hex
      simp [delete_stock_item, hd]

/-- Witness for C3 at a concrete input: in a database holding exactly the
product with id 1, get succeeds on id 1 and delete answers 200 with id 1. -/
theorem C3_by_id_endpoints_witness :
    (∃ r, get_product dbWithProduct false 1 = .success r) ∧
    (delete_product dbWithProduct false 1).2 = .success 1 :=
  ⟨(C3_by_id_endpoints.1 dbWithProduct 1).2.2.1
      ⟨{ sampleProduct with id := 1 }, List.Mem.head _, rfl⟩,
    (C3_by_id_endpoints.1 dbWithProduct 1).2.2.2.2.2
      ⟨{ sampleProduct with id := 1 }, List.Mem.head _, rfl⟩⟩

/-- C1 counterexample: it is not the case that all seven entity kinds have
list, get-by-id, create and delete handlers — the stock movement entry
kind has no route at all.  (Already its list handler is missing.) -/
theorem C1_counterexample :
    ¬ ∀ e : EntityKind,
        (∃ h ∈ ukisHandlers, entityOf h = e ∧ crudOf h = .listAll) ∧
        (∃ h ∈ ukisHandlers, entityOf h = e ∧ crudOf h = .getById) ∧
        (∃ h ∈ ukisHandlers, entityOf h = e ∧ crudOf h = .create) ∧
        (∃ h ∈ ukisHandlers, entityOf h = e ∧ crudOf h = .deleteById) :=
  fun hall => absurd (hall .stockEntries).1 (by decide)

/-- C1 (amended): each of the six entity kinds other than stock movement
entries has a list, a get-by-id, a create and a delete handler among the
API's routes; no route at all serves stock movement entries. -/
theorem C1_crud_coverage :
    (∀ e : EntityKind, e ≠ .stockEntries →
      (∃ h ∈ ukisHandlers, entityOf h = e ∧ crudOf h = .listAll) ∧
      (∃ h ∈ ukisHandlers, entityOf h = e ∧ crudOf h = .getById) ∧
      (∃ h ∈ ukisHandlers, entityOf h = e ∧ crudOf h = .create) ∧
      (∃ h ∈ ukisHandlers, entityOf h = e ∧ crudOf h = .deleteById)) ∧
    (∀ h ∈ ukisHandlers, entityOf h ≠ .stockEntries) := by
  constructor
  · intro e he
    cases e <;> first | exact absurd rfl he | decide
  · decide

/-- Witness for C1's amended theorem at the concrete entity kind
`products`. -/
theorem C1_crud_coverage_witness :
    (∃ h ∈ ukisHandlers, entityOf h = .products ∧ crudOf h = .listAll) ∧
    (∃ h ∈ ukisHandlers, entityOf h = .products ∧ crudOf h = .getById) ∧
    (∃ h ∈ ukisHandlers, entityOf h = .products ∧ crudOf h = .create) ∧
    (∃ h ∈ ukisHandlers, entityOf h = .products ∧ crudOf h = .deleteById) :=
  C1_crud_coverage.1 .products (by decide)

/-- C5: every handler runs exactly one SQL statement, that statement names
the handler's own entity table (so no transaction spans several
statements), and executing any request leaves every table other than the
handler's own unchanged, whether or not the statement fails. -/
theorem C5_single_statement_and_frame :
    (∀ h : HandlerId,
      (sqlStatements h).length = 1 ∧
      ∀ s ∈ sqlStatements h, s.table = entityOf h) ∧
    (∀ (db : DB) (dbErr : Bool) (req : Request) (e : EntityKind),
      e ≠ entityOf req.handlerId →
      agreeOn e db (handle db dbErr req).1) := by
  constructor
  · intro h
    cases h <;> exact ⟨rfl, by decide⟩
  · intro db dbErr req e hne
    cases dbErr <;> cases req <;> cases e <;>
      first
        | exact absurd rfl hne
        | rfl
        | (rename_i i
           cases hd : (db.products.deleteById Product.id i).2 <;>
             simp [handle, delete_product, agreeOn, hd]
           done)
        | (rename_i i
           cases hd : (db.units.deleteById Unit.id i).2 <;>
             simp [handle, delete_unit, agreeOn, hd]
           done)
        | (rename_i i
           cases hd : (db.unit_conversions.deleteById UnitConversion.id
               i).2 <;>
             simp [handle, delete_unit_conversion, agreeOn, hd]
           done)
        | (rename_i i
           cases hd : (db.places.deleteById Place.id i).2 <;>
             simp [handle, delete_place, agreeOn, hd]
           done)
        | (rename_i i
           cases hd : (db.spaces.deleteById Space.id i).2 <;>
             simp [handle, delete_space, agreeOn, hd]
           done)
        | (rename_i i
           cases hd : (db.stock_items.deleteById StockItem.id i).2 <;>
             simp [handle, delete_stock_item, agreeOn, hd]
           done)

/-- Witness for C5's frame part at a concrete input: creating a product
leaves the `units` table of the empty database unchanged. -/
theorem C5_single_statement_and_frame_witness :
    agreeOn .units emptyDB
      (handle emptyDB false (.newProduct sampleProduct)).1 :=
  C5_single_statement_and_frame.2 emptyDB false (.newProduct sampleProduct)
    .units (by decide)

/-- C8: no endpoint's response depends on the stock movement ledger, no
request changes it, the stock-items list handler serves the stored rows
(so `stock_quantity` is the stored column, not an aggregation over
entries), and every record served by the get-by-id stock-item handler is a
stored row. -/
theorem C8_stock_entries_disconnected :
    (∀ (db : DB) (dbErr : Bool) (req : Request) (se : Table StockEntry),
      (handle { db with stock_entries := se } dbErr req).2 =
        (handle db dbErr req).2 ∧
      ((handle db dbErr req).1).stock_entries = db.stock_entries) ∧
    (∀ db : DB, get_stock_items db false = .success db.stock_items.rows) ∧
    (∀ (db : DB) (i : Int) (it : StockItem),
      get_stock_item db false i = .success it →
      it ∈ db.stock_items.rows ∧ it.id = i) := by
  refine ⟨?_, fun _ => rfl, ?_⟩
  · intro db dbErr req se
    cases dbErr <;> cases req <;>
      first
        | exact ⟨rfl, rfl⟩
        | (rename_i i
           refine ⟨?_, ?_⟩ <;>
             cases hd : (db.products.deleteById Product.id i).2 <;>
               simp [handle, delete_product, hd]
           done)
        | (rename_i i
           refine ⟨?_, ?_⟩ <;>
             cases hd : (db.units.deleteById Unit.id i).2 <;>
               simp [handle, delete_unit, hd]
           done)
        | (rename_i i
           refine ⟨?_, ?_⟩ <;>
             cases hd : (db.unit_conversions.deleteById UnitConversion.id
                 i).2 <;>
               simp [handle, delete_unit_conversion, hd]
           done)
        | (rename_i i
           refine ⟨?_, ?_⟩ <;>
             cases hd : (db.places.deleteById Place.id i).2 <;>
               simp [handle, delete_place, hd]
           done)
        | (rename_i i
           refine ⟨?_, ?_⟩ <;>
             cases hd : (db.spaces.deleteById Space.id i).2 <;>
               simp [handle, delete_space, hd]
           done)
        | (rename_i i
           refine ⟨?_, ?_⟩ <;>
             cases hd : (db.stock_items.deleteById StockItem.id i).2 <;>
               simp [handle, delete_stock_item, hd]
           done)
  · intro db i it h
    cases hsel : db.stock_items.selectById StockItem.id i with
    | some q =>
      have hq : q = it := by simpa [get_stock_item, hsel] using h
      exact hq ▸ Table.selectById_eq_some hsel
    | none => simp [get_stock_item, hsel] at h

/-- Witness for C8 at a concrete input: the stored stock item with id 1 is
what get-by-id serves, and it belongs to the stored rows. -/
theorem C8_stock_entries_disconnected_witness :
    ⟨1, 7, 3, ⟨1065353216⟩, none⟩ ∈
        ((new_stock_item emptyDB false sampleStockItemBody).1).stock_items.rows ∧
    StockItem.id ⟨1, 7, 3, ⟨1065353216⟩, none⟩ = 1 :=
  C8_stock_entries_disconnected.2.2
    (new_stock_item emptyDB false sampleStockItemBody).1 1
    ⟨1, 7, 3, ⟨1065353216⟩, none⟩ (by decide)

/-- C10: no authentication or authorization — two HTTP requests that agree
on route, path parameter and body but differ arbitrarily in caller
identity and headers produce identical results against any database
state. -/
theorem C10_no_authentication :
    ∀ (db : DB) (dbErr : Bool) (r1 r2 : HttpRequest),
      r1.request = r2.request →
      handleHttp db dbErr r1 = handleHttp db dbErr r2 := by
  intro db dbErr r1 r2 h
  simp [handleHttp, h]

/-- Witness for C10 at concrete inputs: an authenticated-looking request
and an anonymous one to `GET /products` get the same answer. -/
theorem C10_no_authentication_witness :
    handleHttp emptyDB false
        ⟨"alice", [("authorization", "token-a")], .getProducts⟩ =
      handleHttp emptyDB false ⟨"mallory", [], .getProducts⟩ :=
  C10_no_authentication emptyDB false _ _ rfl

end Ukis
